import Mathlib

set_option linter.unusedVariables false

/-!
Verification development for the Ubuntu 20.04 STIG remediation engine
(src/ubuntu20_stig_v2r3_enhanced.py).  The Python source is embedded
shallowly: pure fragments become Lean functions, stateful fragments thread
an explicit state value, and Python exceptions are modelled with an
`Except PyExc` result.  Two facts about the Python runtime are used
throughout and are modelled by dedicated definitions:

  * calling a function with a keyword argument its signature does not
    accept raises `TypeError` before the body runs
    (`run_command_kwcapture`), and

  * reading the attribute `returncode`, `stdout` or `stderr` of a plain
    tuple raises `AttributeError` (`tuple_returncode` and friends).

These matter because `SystemModifier.run_command(self, cmd, check=True)`
returns a `(bool, str)` tuple, while the SysctlManager enhancement
methods call it as `self.run_command(cmd, capture_output=True,
check=False)` and then read `result.returncode` / `result.stdout`.
-/

/-- Python exceptions that the embedded fragments can raise. -/
inductive PyExc
  | typeError
  | attributeError
  | osError
deriving DecidableEq, Repr

/-- Message text attached to an exception when it is recorded in a ledger
(`critical_errors.append(str(e))` in the source); the exact wording is not
load-bearing. -/
def pyExcMessage : PyExc → String
  | PyExc.typeError => "TypeError: run_command got an unexpected keyword argument"
  | PyExc.attributeError => "AttributeError: tuple object has no attribute returncode"
  | PyExc.osError => "OSError"

/-- First-match lookup in an association list, mirroring a Python dict read
or the first regex match in a file scanned line by line. -/
def lookupA {α : Type} : List (String × α) → String → Option α
  | [], _ => none
  | (k, v) :: rest, p => if k = p then some v else lookupA rest p

/-- Update the first binding of a key, leaving the list unchanged when the
key is absent (the behaviour of writing an existing sysctl key). -/
def setAssoc : List (String × String) → String → String → List (String × String)
  | [], _, _ => []
  | (k, w) :: rest, p, v => if k = p then (k, v) :: rest else (k, w) :: setAssoc rest p v

/-- Update the first binding of a key or append a new binding, mirroring a
file write that creates the file when missing. -/
def upsertA {α : Type} : List (String × α) → String → α → List (String × α)
  | [], p, v => [(p, v)]
  | (k, w) :: rest, p, v => if k = p then (p, v) :: rest else (k, w) :: upsertA rest p v

/-- Substring test on character lists (the embedding of a Python
`needle in haystack` membership test on strings). -/
def containsSub (pat : List Char) : List Char → Bool
  | [] => pat.isEmpty
  | c :: rest => pat.isPrefixOf (c :: rest) || containsSub pat rest

/-- SysctlManager.STIG_KERNEL_PARAMS: the fixed parameter catalog, in the
source dictionary order (28 entries). -/
def STIG_KERNEL_PARAMS : List (String × String) :=
  [("net.ipv4.conf.all.rp_filter", "1"),
   ("net.ipv4.conf.default.rp_filter", "1"),
   ("net.ipv4.conf.all.accept_source_route", "0"),
   ("net.ipv4.conf.default.accept_source_route", "0"),
   ("net.ipv4.conf.all.accept_redirects", "0"),
   ("net.ipv4.conf.default.accept_redirects", "0"),
   ("net.ipv4.conf.all.secure_redirects", "0"),
   ("net.ipv4.conf.default.secure_redirects", "0"),
   ("net.ipv4.conf.all.send_redirects", "0"),
   ("net.ipv4.conf.default.send_redirects", "0"),
   ("net.ipv4.icmp_echo_ignore_broadcasts", "1"),
   ("net.ipv4.icmp_ignore_bogus_error_responses", "1"),
   ("net.ipv4.tcp_syncookies", "1"),
   ("net.ipv4.conf.all.log_martians", "1"),
   ("net.ipv4.conf.default.log_martians", "1"),
   ("net.ipv4.ip_forward", "0"),
   ("net.ipv6.conf.all.accept_source_route", "0"),
   ("net.ipv6.conf.default.accept_source_route", "0"),
   ("net.ipv6.conf.all.accept_redirects", "0"),
   ("net.ipv6.conf.default.accept_redirects", "0"),
   ("net.ipv6.conf.all.forwarding", "0"),
   ("kernel.dmesg_restrict", "1"),
   ("kernel.kptr_restrict", "2"),
   ("kernel.yama.ptrace_scope", "1"),
   ("kernel.randomize_va_space", "2"),
   ("fs.suid_dumpable", "0"),
   ("net.ipv4.conf.all.arp_filter", "1"),
   ("net.ipv4.conf.all.arp_announce", "2")]

/-- Parameters that require a reboot (SysctlManager.REBOOT_REQUIRED_PARAMS). -/
def REBOOT_REQUIRED_PARAMS : List String :=
  ["kernel.randomize_va_space", "fs.suid_dumpable",
   "kernel.dmesg_restrict", "kernel.kptr_restrict"]

/-- Performance impact table (SysctlManager.PARAM_PERFORMANCE_IMPACT):
parameter, impact level, description, mitigation. -/
def PARAM_PERFORMANCE_IMPACT : List (String × String × String × String) :=
  [("net.ipv4.tcp_syncookies", ("MEDIUM",
      "TCP SYN cookies protect against SYN flood attacks but may impact connection tracking",
      "Performance impact is minimal on modern systems")),
   ("net.ipv4.conf.all.log_martians", ("MEDIUM",
      "Logging martian packets can generate significant logs under attack",
      "Ensure adequate log storage and rotation")),
   ("kernel.randomize_va_space", ("LOW",
      "ASLR has minimal performance impact on modern systems",
      "No mitigation needed")),
   ("net.ipv4.ip_forward", ("HIGH",
      "Disabling IP forwarding breaks routing functionality",
      "Only enable on systems that require routing/NAT")),
   ("net.ipv6.conf.all.forwarding", ("HIGH",
      "Disabling IPv6 forwarding breaks IPv6 routing",
      "Only enable on systems that require IPv6 routing"))]

/-- Conflict documentation table (SysctlManager.PARAM_CONFLICTS):
parameter, description, warning. -/
def PARAM_CONFLICTS : List (String × String × String) :=
  [("net.ipv4.ip_forward",
      ("IP forwarding is disabled by STIG but may be needed for routers/NAT gateways",
       "This will break routing functionality if system acts as a router")),
   ("net.ipv6.conf.all.forwarding",
      ("IPv6 forwarding is disabled by STIG but may be needed for IPv6 routers",
       "This will break IPv6 routing functionality"))]

/-- Path of the generated sysctl store artifact. -/
def STIG_CONF_PATH : String := "/etc/sysctl.d/99-stig-v2r3.conf"

/-- Path of the traditional sysctl configuration file. -/
def SYSCTL_CONF_PATH : String := "/etc/sysctl.conf"

/-- STIGConfig.ENABLE_AUTO_ROLLBACK default. -/
def ENABLE_AUTO_ROLLBACK : Bool := true

/-- STIGConfig.MAX_FAILED_COMMANDS default. -/
def MAX_FAILED_COMMANDS : Nat := 10

/-- System state seen by SysctlManager: the live kernel parameters
(name to value) and the on-disk sysctl configuration files, each file
given by its list of `key = value` assignment lines in order.  Comment and
blank lines are omitted from the model because the scanning regex
`^\s*param\s*=\s*(.+)$` never matches them; a first `re.search` match for
a key corresponds to `lookupA` on the assignment lines. -/
structure SysctlState where
  live : List (String × String)
  confFiles : List (String × List (String × String))
deriving DecidableEq, Repr

/-- Commands the sysctl code paths actually execute through run_command. -/
inductive Cmd
  | sysctlRead (p : String)
  | sysctlWrite (p v : String)
deriving DecidableEq, Repr

/-- Effect and exit status of one executed command: `sysctl -n` reads a
live parameter, `sysctl -w` sets an existing live parameter and fails
without effect on an unknown key. -/
def execCmd (s : SysctlState) : Cmd → SysctlState × Int × String
  | Cmd.sysctlRead p =>
      match lookupA s.live p with
      | some v => (s, 0, v)
      | none => (s, 255, "")
  | Cmd.sysctlWrite p v =>
      match lookupA s.live p with
      | some _ => ({ s with live := setAssoc s.live p v }, 0, p ++ " = " ++ v)
      | none => (s, 255, "")

/-- SystemModifier.run_command(cmd, check): executes the command (dry-run
is off in the runs the claims are about) and returns the `(bool, str)`
tuple the method produces: with `check=False` subprocess.run never raises,
so the method returns `(True, stdout)`; with `check=True` a non-zero exit
raises CalledProcessError inside run_command, which catches it and
returns `(False, stderr)`. -/
def run_command (s : SysctlState) (c : Cmd) (check : Bool) :
    SysctlState × Bool × String :=
  let (s1, rc, out) := execCmd s c
  if check && rc != 0 then (s1, false, out) else (s1, true, out)

/-- Result of calling run_command with an extra `capture_output` keyword
argument, as the SysctlManager enhancement methods do.  The signature is
`run_command(self, cmd, check=True)`, so Python raises TypeError while
binding the arguments, before any command is executed and before the
state can change. -/
def run_command_kwcapture (s : SysctlState) (cmd : List String) :
    Except PyExc (SysctlState × Bool × String) :=
  Except.error PyExc.typeError

/-- Reading `.returncode` on the `(bool, str)` tuple run_command returns
raises AttributeError. -/
def tuple_returncode (t : Bool × String) : Except PyExc Int :=
  Except.error PyExc.attributeError

/-- Reading `.stdout` on the `(bool, str)` tuple raises AttributeError. -/
def tuple_stdout (t : Bool × String) : Except PyExc String :=
  Except.error PyExc.attributeError

/-- Classification of one parameter by validate_current_params.  The
source distinguishes the unreadable case found via a non-zero exit (which
sets `drift_detected`) from the unreadable case recorded by the
`except Exception` handler (which does not). -/
inductive ParamClass
  | isCompliant (value : String)
  | nonCompliant (current expected : String)
  | missingNoRead (expected err : String)
  | missingExc (expected err : String)
deriving DecidableEq, Repr

/-- Body of the per-parameter try block of validate_current_params
(source lines 1740-1779): the run_command call carries the unsupported
`capture_output` keyword, so every parameter falls into the exception
handler and is recorded as missing. -/
def validate_one (s : SysctlState) (p expected : String) : ParamClass :=
  match (do
      let r ← run_command_kwcapture s ["sysctl", "-n", p]
      let rc ← tuple_returncode r.2
      if rc != 0 then
        pure (ParamClass.missingNoRead expected "Parameter does not exist or cannot be read")
      else do
        let out ← tuple_stdout r.2
        let current := out.trim
        if current = expected then pure (ParamClass.isCompliant current)
        else pure (ParamClass.nonCompliant current expected) : Except PyExc ParamClass) with
  | Except.ok c => c
  | Except.error e => ParamClass.missingExc expected (pyExcMessage e)

/-- Aggregate result of validate_current_params. -/
structure ValidationResults where
  compliant : List (String × String)
  non_compliant : List (String × String × String)
  missing : List (String × String)
  drift_detected : Bool
deriving DecidableEq, Repr

/-- SysctlManager.validate_current_params: classify every catalog
parameter; `drift_detected` is set by the non-compliant and
unreadable-by-exit-code branches only. -/
def validate_current_params (s : SysctlState) : ValidationResults :=
  STIG_KERNEL_PARAMS.foldl
    (fun acc kv =>
      match validate_one s kv.1 kv.2 with
      | ParamClass.isCompliant v =>
          { acc with compliant := acc.compliant ++ [(kv.1, v)] }
      | ParamClass.nonCompliant c e =>
          { acc with non_compliant := acc.non_compliant ++ [(kv.1, c, e)],
                     drift_detected := true }
      | ParamClass.missingNoRead e err =>
          { acc with missing := acc.missing ++ [(kv.1, e)], drift_detected := true }
      | ParamClass.missingExc e err =>
          { acc with missing := acc.missing ++ [(kv.1, e)] })
    { compliant := [], non_compliant := [], missing := [], drift_detected := false }

/-- Per-parameter body of create_snapshot (source lines 2070-2081): the
run_command call carries the unsupported `capture_output` keyword, so the
TypeError is caught by the handler and the snapshot records None. -/
def snapshot_param (s : SysctlState) (p : String) : Option String :=
  match (do
      let r ← run_command_kwcapture s ["sysctl", "-n", p]
      let rc ← tuple_returncode r.2
      if rc = 0 then do
        let out ← tuple_stdout r.2
        pure (some out.trim)
      else
        pure none : Except PyExc (Option String)) with
  | Except.ok v => v
  | Except.error _ => none

/-- Snapshot of live parameter values (SysctlManager.create_snapshot
result); a None value means the parameter could not be captured. -/
structure Snapshot where
  parameters : List (String × Option String)
deriving DecidableEq, Repr

/-- SysctlManager.create_snapshot: capture every catalog parameter. -/
def create_snapshot (s : SysctlState) : Snapshot :=
  { parameters := STIG_KERNEL_PARAMS.map (fun kv => (kv.1, snapshot_param s kv.1)) }

/-- Loop of restore_from_snapshot (source lines 2103-2120): None values
are skipped; for a captured value, run_command executes `sysctl -w`
(changing the live state) and returns a tuple, after which reading
`result.returncode` raises AttributeError, which the per-parameter
handler records as a failure (`success = False`). -/
def restore_go (s : SysctlState) (ok : Bool) :
    List (String × Option String) → SysctlState × Bool
  | [] => (s, ok)
  | (p, none) :: rest => restore_go s ok rest
  | (p, some v) :: rest =>
      let (s1, r) := run_command s (Cmd.sysctlWrite p v) false
      match tuple_returncode r with
      | Except.ok rc =>
          if rc = 0 then restore_go s1 ok rest else restore_go s1 false rest
      | Except.error _ => restore_go s1 false rest

/-- SysctlManager.restore_from_snapshot: returns the final live state and
the reported success flag. -/
def restore_from_snapshot (s : SysctlState) (snap : Snapshot) :
    SysctlState × Bool :=
  restore_go s true snap.parameters

/-- One advisory warning produced by detect_parameter_conflicts. -/
structure ConflictWarning where
  param : String
  expected_value : String
  description : String
  warning : String
deriving DecidableEq, Repr

/-- SysctlManager.detect_parameter_conflicts (source lines 1925-1987):
first the documented PARAM_CONFLICTS warnings are collected, then, because
net.ipv4.ip_forward is in the catalog, run_command is invoked with the
unsupported `capture_output` keyword outside any try block, so the
TypeError escapes the method. -/
def detect_parameter_conflicts (s : SysctlState) :
    Except PyExc (List ConflictWarning) := do
  let docWarnings := STIG_KERNEL_PARAMS.foldl
    (fun acc kv =>
      match lookupA PARAM_CONFLICTS kv.1 with
      | some dw => acc ++ [ConflictWarning.mk kv.1 kv.2 dw.1 dw.2]
      | none => acc) []
  let warnings1 ←
    if (lookupA STIG_KERNEL_PARAMS "net.ipv4.ip_forward").isSome then do
      let r ← run_command_kwcapture s ["ip", "route", "show"]
      let rc ← tuple_returncode r.2
      let out ← tuple_stdout r.2
      if rc = 0 && (out.splitOn "default via").length > 1 then
        pure (docWarnings ++
          [ConflictWarning.mk "net.ipv4.ip_forward" "0"
            "System has routing configured"
            "Disabling IP forwarding may break routing functionality."])
      else pure docWarnings
    else pure docWarnings
  let warnings2 ←
    if (lookupA STIG_KERNEL_PARAMS "net.ipv6.conf.all.forwarding").isSome then do
      let r ← run_command_kwcapture s ["ip", "-6", "route", "show"]
      let rc ← tuple_returncode r.2
      let out ← tuple_stdout r.2
      if rc = 0 && out.trim ≠ "" then
        pure (warnings1 ++
          [ConflictWarning.mk "net.ipv6.conf.all.forwarding" "0"
            "System has IPv6 routing configured"
            "Disabling IPv6 forwarding may break IPv6 routing functionality."])
      else pure warnings1
    else pure warnings1
  pure warnings2

/-- Aggregate result of assess_performance_impact; entries are parameter
names in catalog order. -/
structure ImpactAssessment where
  high_impact : List String
  medium_impact : List String
  low_impact : List String
  no_documented_impact : List String
  overall_risk : String
deriving DecidableEq, Repr

/-- SysctlManager.assess_performance_impact: static classification of the
catalog by the impact table; overall risk is HIGH when any high-impact
entry exists, MEDIUM when more than two medium-impact entries exist, else
LOW. -/
def assess_performance_impact : ImpactAssessment :=
  let base := STIG_KERNEL_PARAMS.foldl
    (fun acc kv =>
      match lookupA PARAM_PERFORMANCE_IMPACT kv.1 with
      | some info =>
          if info.1 = "HIGH" then { acc with high_impact := acc.high_impact ++ [kv.1] }
          else if info.1 = "MEDIUM" then
            { acc with medium_impact := acc.medium_impact ++ [kv.1] }
          else { acc with low_impact := acc.low_impact ++ [kv.1] }
      | none =>
          { acc with no_documented_impact := acc.no_documented_impact ++ [kv.1] })
    (ImpactAssessment.mk [] [] [] [] "LOW")
  if base.high_impact.length > 0 then { base with overall_risk := "HIGH" }
  else if base.medium_impact.length > 2 then { base with overall_risk := "MEDIUM" }
  else { base with overall_risk := "LOW" }

/-- Aggregate result of detect_reboot_requirements. -/
structure RebootAnalysis where
  reboot_required : List (String × String)
  runtime_changeable : List (String × String)
  reboot_recommended : Bool
deriving DecidableEq, Repr

/-- SysctlManager.detect_reboot_requirements: static split of the catalog
by REBOOT_REQUIRED_PARAMS.  The source additionally calls
validate_current_params for logging only; that call changes nothing. -/
def detect_reboot_requirements (s : SysctlState) : RebootAnalysis :=
  STIG_KERNEL_PARAMS.foldl
    (fun acc kv =>
      if REBOOT_REQUIRED_PARAMS.contains kv.1 then
        { acc with reboot_required := acc.reboot_required ++ [kv],
                   reboot_recommended := true }
      else
        { acc with runtime_changeable := acc.runtime_changeable ++ [kv] })
    (RebootAnalysis.mk [] [] false)

/-- Configuration files found by verify_persistence (source lines
1810-1827): /etc/sysctl.conf when present, the STIG artifact when
present, then every /etc/sysctl.d/*.conf file from the glob (the STIG
artifact therefore appears twice when it exists, as in the source). -/
def config_files_found (s : SysctlState) : List String :=
  (if (lookupA s.confFiles SYSCTL_CONF_PATH).isSome then [SYSCTL_CONF_PATH] else []) ++
  (if (lookupA s.confFiles STIG_CONF_PATH).isSome then [STIG_CONF_PATH] else []) ++
  ((s.confFiles.map Prod.fst).filter
    (fun p => "/etc/sysctl.d/".data.isPrefixOf p.data && ".conf".data.isSuffixOf p.data))

/-- Occurrences of one parameter across the found configuration files:
for each file, the first `param = value` assignment line, with its value.
The desired value is not consulted. -/
def param_config_hits (s : SysctlState) (p : String) : List (String × String) :=
  (config_files_found s).foldr
    (fun f acc =>
      match lookupA s.confFiles f with
      | none => acc
      | some lines =>
          match lookupA lines p with
          | some v => (f, v) :: acc
          | none => acc) []

/-- Aggregate result of verify_persistence. -/
structure PersistResults where
  config_files : List String
  parameters_in_config : List (String × List (String × String))
  missing_from_config : List (String × String)
  persistence_verified : Bool
deriving DecidableEq, Repr

/-- SysctlManager.verify_persistence (source lines 1792-1877): a
parameter is missing from config exactly when no found file contains an
assignment line for its name, whatever the assigned values are; when the
STIG artifact exists on disk the final load test calls run_command with
the unsupported `capture_output` keyword outside any try block and the
TypeError escapes the method. -/
def verify_persistence (s : SysctlState) : Except PyExc PersistResults :=
  let found := config_files_found s
  let inConfig := (STIG_KERNEL_PARAMS.filter
      (fun kv => !(param_config_hits s kv.1).isEmpty)).map
      (fun kv => (kv.1, param_config_hits s kv.1))
  let missing := STIG_KERNEL_PARAMS.filter
      (fun kv => (param_config_hits s kv.1).isEmpty)
  let verified := missing.isEmpty
  if (lookupA s.confFiles STIG_CONF_PATH).isSome then do
    let r ← run_command_kwcapture s ["sysctl", "-p", STIG_CONF_PATH]
    let rc ← tuple_returncode r.2
    pure (PersistResults.mk found inConfig missing (verified && rc = 0))
  else
    Except.ok (PersistResults.mk found inConfig missing verified)

/-- Parameter application loop of apply_stig_params (source lines
2560-2571).  Each iteration executes `sysctl -w` through run_command
(changing the live state), then reads `result.returncode` on the returned
tuple; the resulting AttributeError is not handled inside the loop, so it
escapes to the try block around the whole application step. -/
def apply_params_go (s : SysctlState) (applied failed : Nat) (errs : List String) :
    List (String × String) → SysctlState × Nat × Nat × List String × Option PyExc
  | [] => (s, applied, failed, errs, none)
  | (k, v) :: rest =>
      let (s1, r) := run_command s (Cmd.sysctlWrite k v) false
      match tuple_returncode r with
      | Except.error e => (s1, applied, failed, errs, some e)
      | Except.ok rc =>
          if rc = 0 then apply_params_go s1 (applied + 1) failed errs rest
          else
            apply_params_go s1 applied (failed + 1)
              (errs ++ ["Failed to apply " ++ k ++ " = " ++ v]) rest

/-- Try block of the application step of apply_stig_params (source lines
2548-2600): run the loop; when it raises, the handler appends the
exception text to critical_errors and sets success to False.  On the
(unreachable) no-exception path the generated `key = value` artifact is
written to the sysctl.d store through atomic_write and reloaded with
`sysctl -p`, which is again called with the unsupported `capture_output`
keyword; that TypeError is caught by the same handler.  Returns the
state, critical_errors and the success flag. -/
def apply_try_block (s : SysctlState) : SysctlState × List String × Bool :=
  match apply_params_go s 0 0 [] STIG_KERNEL_PARAMS with
  | (s1, _applied, _failed, errs, some e) =>
      (s1, errs ++ [pyExcMessage e], false)
  | (s1, _applied, _failed, errs, none) =>
      let s2 := { s1 with confFiles := upsertA s1.confFiles STIG_CONF_PATH STIG_KERNEL_PARAMS }
      match run_command_kwcapture s2 ["sysctl", "-p", STIG_CONF_PATH] with
      | Except.error e => (s2, errs ++ [pyExcMessage e], false)
      | Except.ok r =>
          match tuple_returncode r.2 with
          | Except.error e => (s2, errs ++ [pyExcMessage e], false)
          | Except.ok rc =>
              if rc ≠ 0 then (s2, errs ++ ["Error loading sysctl config"], false)
              else (s2, errs, true)

/-- SysctlManager.apply_stig_params (source lines 2465-2679), threading
the system state and the change ledger; the Except value distinguishes a
returned bool from an escaping exception (the Python object and system
state survive the exception, so they are reported alongside it).
Steps: (1) snapshot when rollback is enabled (create_snapshot catches its
own per-parameter TypeErrors, so the surrounding try never fires);
(2) validation, impact, conflict and reboot analyses — the conflict
detection call raises TypeError outside any try block, so the exception
escapes the method before any parameter is touched; (3-5) the
application try block; (6) the automatic-rollback branch, entered when
critical_errors is non-empty, rollback is enabled, a snapshot exists and
STIGConfig.ENABLE_AUTO_ROLLBACK holds; otherwise persistence and final
validation run and the success flag is returned. -/
def apply_stig_params (s : SysctlState) (enable_rollback : Bool) :
    SysctlState × List String × Except PyExc Bool :=
  let snapshot : Option Snapshot :=
    if enable_rollback then some (create_snapshot s) else none
  let _validation := validate_current_params s
  let _impact := assess_performance_impact
  match detect_parameter_conflicts s with
  | Except.error e => (s, [], Except.error e)
  | Except.ok _conflicts =>
    let reboot := detect_reboot_requirements s
    match apply_try_block s with
    | (s1, errs, ok1) =>
      if !errs.isEmpty && enable_rollback && snapshot.isSome && ENABLE_AUTO_ROLLBACK then
        let (s2, rbOk) := restore_from_snapshot s1 (snapshot.getD (Snapshot.mk []))
        let changes :=
          if rbOk then
            ["Kernel parameter application FAILED - rolled back to original state"]
          else ["WARNING: Kernel parameter rollback FAILED"]
        (s2, changes, Except.ok false)
      else
        match verify_persistence s1 with
        | Except.error e => (s1, [], Except.error e)
        | Except.ok _persist =>
          let finalv := validate_current_params s1
          if ok1 then
            let changes :=
              ["Applied STIG V2R3 kernel parameters with enhanced validation and rollback support",
               "Kernel parameter remediation complete"] ++
              (if snapshot.isSome then ["Pre-change snapshot created"] else []) ++
              (if reboot.reboot_recommended then
                 ["REBOOT RECOMMENDED: Some kernel parameters require a system reboot to take full effect"]
               else [])
            (s1, changes, Except.ok true)
          else (s1, [], Except.ok ok1)

/-- Letter-grade banding of generate_compliance_report (source lines
2155-2172). -/
def assign_grade (score : ℚ) : String :=
  if score ≥ 95 then "A+"
  else if score ≥ 90 then "A"
  else if score ≥ 85 then "B+"
  else if score ≥ 80 then "B"
  else if score ≥ 75 then "C+"
  else if score ≥ 70 then "C"
  else if score ≥ 60 then "D"
  else "F"

/-- Full compliance report (score as an exact rational; the Python float
arithmetic is immaterial because construction never reaches it). -/
structure ComplianceReport where
  validation : ValidationResults
  persistence : PersistResults
  reboot_analysis : RebootAnalysis
  conflicts : List ConflictWarning
  performance : ImpactAssessment
  compliance_score : ℚ
  grade : String
deriving DecidableEq, Repr

/-- SysctlManager.generate_compliance_report (source lines 2125-2182):
the report dictionary is built by calling the analysis methods in order;
verify_persistence raises TypeError when the STIG artifact exists, and
detect_parameter_conflicts raises TypeError unconditionally, so the
score and grade computation below the calls is unreachable. -/
def generate_compliance_report (s : SysctlState) : Except PyExc ComplianceReport := do
  let validation := validate_current_params s
  let persistence ← verify_persistence s
  let reboot := detect_reboot_requirements s
  let conflicts ← detect_parameter_conflicts s
  let perf := assess_performance_impact
  let total : ℚ := STIG_KERNEL_PARAMS.length
  let compliant : ℚ := validation.compliant.length
  let score : ℚ := if total > 0 then compliant / total * 100 else 0
  pure (ComplianceReport.mk validation persistence reboot conflicts perf score
    (assign_grade score))

/-- Filesystem entry: a regular file with its text content, or a
directory.  A directory is modelled as an atomic blob standing for its
whole recursive content, because the recovery code only ever copies
(copytree), removes (rmtree) or replaces directories wholesale. -/
inductive Entry
  | fileE (content : String)
  | dirE (blob : String)
deriving DecidableEq, Repr

/-- Filesystem as a map from absolute path to entry. -/
def FS : Type := String → Option Entry

/-- Pointwise filesystem update. -/
def fsSet (fs : FS) (p : String) (e : Option Entry) : FS :=
  fun q => if q = p then e else fs q

/-- Manifest of a recovery point: the captured file paths and directory
paths (manifest.json in the bundle directory). -/
structure RPManifest where
  files : List String
  directories : List String
deriving DecidableEq, Repr

/-- On-disk recovery-point bundle: the manifest, when one was written,
and the captured copies keyed by their original absolute path (the bundle
directory mirrors original paths). -/
structure RPBundle where
  manifest : Option RPManifest
  captured : String → Option Entry

/-- File-restore loop of restore_recovery_point (source lines 1150-1155):
each manifest-listed file whose copy exists in the bundle is copied back
over its original path; files without a copy are skipped. -/
def restore_files (fs : FS) (b : RPBundle) : List String → FS
  | [] => fs
  | f :: rest =>
      match b.captured f with
      | some e => restore_files (fsSet fs f (some e)) b rest
      | none => restore_files fs b rest

/-- Directory-restore loop of restore_recovery_point (source lines
1157-1165): for each manifest-listed directory whose copy exists in the
bundle, any existing directory at the original path is removed (rmtree)
and the captured copy is put in its place (copytree). -/
def restore_dirs (fs : FS) (b : RPBundle) : List String → FS
  | [] => fs
  | d :: rest =>
      match b.captured d with
      | some e =>
          let fs1 := if (fs d).isSome then fsSet fs d none else fs
          restore_dirs (fsSet fs1 d (some e)) b rest
      | none => restore_dirs fs b rest

/-- RecoveryManager.restore_recovery_point (source lines 1125-1178):
loads the manifest (a missing or unreadable manifest makes the except
handler return False with nothing restored), then restores the
manifest-listed files followed by the manifest-listed directories. -/
def restore_recovery_point (fs : FS) (b : RPBundle) : FS × Bool :=
  match b.manifest with
  | none => (fs, false)
  | some m => (restore_dirs (restore_files fs b m.files) b m.directories, true)

/-- Critical files captured by create_recovery_point (source lines
1058-1071). -/
def CRITICAL_FILES : List String :=
  ["/etc/ssh/sshd_config",
   "/etc/pam.d/common-auth",
   "/etc/pam.d/common-password",
   "/etc/pam.d/common-account",
   "/etc/pam.d/common-session",
   "/etc/security/pwquality.conf",
   "/etc/security/faillock.conf",
   "/etc/sudoers",
   "/etc/login.defs",
   "/etc/sysctl.conf",
   "/etc/default/grub",
   "/etc/audit/auditd.conf"]

/-- Critical directories captured by create_recovery_point (source lines
1074-1080). -/
def CRITICAL_DIRS : List String :=
  ["/etc/sysctl.d/",
   "/etc/audit/rules.d/",
   "/etc/sudoers.d/",
   "/etc/modprobe.d/",
   "/etc/systemd/system/"]

/-- Capture loop over one path list (used for both the file loop, source
lines 1091-1097, and the directory loop, lines 1100-1105): paths that do
not exist are skipped; an existing path is copied into the bundle and
appended to the in-memory manifest list.  Copy operations are numbered
from `step`; when `failAt` names the current copy, shutil raises and the
loop aborts with the exception pending (ok = false).  Returns the bundle
contents, the in-memory manifest list, the next step number and whether
the loop finished without an exception. -/
def capture_go (fs : FS) (bundle : String → Option Entry) (cap : List String)
    (step : Nat) (failAt : Option Nat) :
    List String → (String → Option Entry) × List String × Nat × Bool
  | [] => (bundle, cap, step, true)
  | p :: rest =>
      match fs p with
      | none => capture_go fs bundle cap step failAt rest
      | some e =>
          if failAt = some step then (bundle, cap, step, false)
          else capture_go fs (fsSet bundle p (some e)) (cap ++ [p]) (step + 1) failAt rest

/-- Result of create_recovery_point: the bundle contents, the manifest
that reached disk (if any) and the returned success flag. -/
structure CreateRPResult where
  bundle : String → Option Entry
  manifestOnDisk : Option RPManifest
  ok : Bool

/-- RecoveryManager.create_recovery_point (source lines 1046-1123):
captures the existing critical files, then the existing critical
directories, and only then writes manifest.json into the bundle; any
exception along the way (a failed copy, numbered by `failAt`, or a failed
manifest write, `manifestWriteFails`) is caught by the surrounding
handler, which returns False — at which point no manifest has been
written to disk, whatever was already copied into the bundle. -/
def create_recovery_point (fs : FS) (failAt : Option Nat)
    (manifestWriteFails : Bool) : CreateRPResult :=
  match capture_go fs (fun _ => none) [] 0 failAt CRITICAL_FILES with
  | (b1, capF, st1, ok1) =>
    if !ok1 then CreateRPResult.mk b1 none false
    else
      match capture_go fs b1 [] st1 failAt CRITICAL_DIRS with
      | (b2, capD, _st2, ok2) =>
        if !ok2 then CreateRPResult.mk b2 none false
        else if manifestWriteFails then CreateRPResult.mk b2 none false
        else CreateRPResult.mk b2 (some (RPManifest.mk capF capD)) true

/-- STIGConfig.BACKUP_DIR default. -/
def BACKUP_DIR : String := "/var/backups/stig-v2r3"

/-- Probe file written and removed by check_backup_dir. -/
def WRITE_TEST_PATH : String := "/var/backups/stig-v2r3/.write_test"

/-- Read-only environment probed by the preflight checks that do not look
at the filesystem model: privilege state, systemd health, network
reachability, SSH session markers, package-manager lock state and free
disk space. -/
structure PreflightEnv where
  isAdmin : Bool
  freeMB : Nat
  systemdOk : Bool
  networkOk : Bool
  overSSH : Bool
  pkgLocked : Bool
deriving DecidableEq, Repr

/-- PreFlightChecker.check_root. -/
def check_root (env : PreflightEnv) : Bool := env.isAdmin

/-- PreFlightChecker.check_os_version (SKIP_OS_CHECK is off by default):
reads /etc/os-release and passes when it mentions Ubuntu 20.04. -/
def check_os_version (fs : FS) : Bool :=
  match fs "/etc/os-release" with
  | some (Entry.fileE c) => containsSub "Ubuntu 20.04".data c.data
  | _ => false

/-- PreFlightChecker.check_disk_space against MIN_FREE_SPACE_MB = 500. -/
def check_disk_space (env : PreflightEnv) : Bool := env.freeMB ≥ 500

/-- PreFlightChecker.check_backup_dir (source lines 926-939): creates the
backup directory when it is missing (os.makedirs with exist_ok), then
writes a probe file into it and unlinks the probe.  A regular file in the
way of the directory makes makedirs raise, and the handler reports
failure without further effect.  This is the one preflight check that
writes to the filesystem. -/
def check_backup_dir (fs : FS) : FS × Bool :=
  match fs BACKUP_DIR with
  | some (Entry.fileE _) => (fs, false)
  | existing =>
      let fs1 := if existing = none then fsSet fs BACKUP_DIR (some (Entry.dirE "")) else fs
      let fs2 := fsSet fs1 WRITE_TEST_PATH (some (Entry.fileE "test"))
      let fs3 := fsSet fs2 WRITE_TEST_PATH none
      (fs3, true)

/-- PreFlightChecker.check_config_integrity: the five critical
configuration files must exist. -/
def check_config_integrity (fs : FS) : Bool :=
  (["/etc/ssh/sshd_config", "/etc/pam.d/common-auth", "/etc/pam.d/common-password",
    "/etc/sudoers", "/etc/login.defs"].all (fun p => (fs p).isSome))

/-- PreFlightChecker.run_all_checks (source lines 803-847), with
REQUIRE_SNAPSHOT off so the snapshot slot is the constant-pass lambda:
every check runs (no fail-fast), the SSH check always passes (it only
warns), and the aggregate is the conjunction.  Only check_backup_dir
touches the filesystem; every other check is a pure read of the
filesystem or of the probe environment. -/
def run_all_checks (env : PreflightEnv) (fs : FS) : FS × Bool :=
  let r1 := check_root env
  let r2 := check_os_version fs
  let r3 := check_disk_space env
  let r4 := env.systemdOk
  let r5 := env.networkOk
  let (fs1, r6) := check_backup_dir fs
  let r7 := true
  let r8 := true
  let r9 := check_config_integrity fs
  let r10 := !env.pkgLocked
  (fs1, r1 && r2 && r3 && r4 && r5 && r6 && r7 && r8 && r9 && r10)

/-- Configuration and collaborator outcomes that
UBUNTU20STIGRemediation.run consults after the recovery point was
created: the auto-rollback and dry-run flags, whether post-remediation
validation is enabled, whether a recovery point is recorded on the
manager, and the outcomes of restore_recovery_point and of the
post-remediation ConfigValidator. -/
structure RunCfg where
  rollbackEnabled : Bool
  dryRun : Bool
  validationEnabled : Bool
  hasRecoveryPoint : Bool
  restoreOk : Bool
  postValidationOk : Bool
deriving DecidableEq, Repr

/-- Terminal outcome of the category-execution portion of run. -/
inductive RunOutcome
  | abortedTooManyErrors (afterTier : Nat) (rollbackAttempted : Bool) (returnValue : Bool)
  | validationRolledBack (returnValue : Bool)
  | validationFailedNoRollback (returnValue : Bool)
  | completed (errorCount : Nat) (returnValue : Bool)
deriving DecidableEq, Repr

/-- Category loop of UBUNTU20STIGRemediation.run (source lines
4108-4182).  The error ledger is checked after CAT I and after CAT II
with a strict comparison (`len(self.all_errors) > MAX_FAILED_COMMANDS`
raises); no check follows CAT III.  An error-budget abort attempts
rollback when auto-rollback is on, the run is not a dry run and a
recovery point is recorded, and the re-raised exception makes run return
False.  A post-validation failure (validation enabled, not a dry run)
triggers restore when auto-rollback is on, and run returns False either
way; otherwise the run completes and returns whether the error ledger is
empty.  The tier error counts e1, e2, e3 are the errors each severity
tier adds to the ledger. -/
def run_categories (cfg : RunCfg) (threshold e1 e2 e3 : Nat) : RunOutcome :=
  if e1 > threshold then
    RunOutcome.abortedTooManyErrors 1
      (cfg.rollbackEnabled && !cfg.dryRun && cfg.hasRecoveryPoint) false
  else if e1 + e2 > threshold then
    RunOutcome.abortedTooManyErrors 2
      (cfg.rollbackEnabled && !cfg.dryRun && cfg.hasRecoveryPoint) false
  else if cfg.validationEnabled && !cfg.dryRun && !cfg.postValidationOk then
    if cfg.rollbackEnabled && cfg.restoreOk then RunOutcome.validationRolledBack false
    else RunOutcome.validationFailedNoRollback false
  else
    RunOutcome.completed (e1 + e2 + e3) (e1 + e2 + e3 == 0)

/-- Fate of one host task in RemoteExecutor.execute_on_host: connection
failure, script-transfer failure, a completed remote run with an exit
code, a transport error raised inside execute_command (such as an SSH
exec timeout, which execute_command catches, recording the error and
returning exit code 1), or an exception raised elsewhere in the
execute_on_host body. -/
inductive HostFate
  | connectFail
  | transferFail
  | execReturn (rc : Int)
  | execCmdError
  | execRaise
deriving DecidableEq, Repr

/-- Book-keeping observable after execute_on_host finishes for one host:
its boolean result, whether it was appended to successful_hosts, whether
it was appended to failed_hosts, and whether host.errors received an
entry. -/
structure HostOutcome where
  returnValue : Bool
  inSuccessful : Bool
  inFailed : Bool
  errorRecorded : Bool
deriving DecidableEq, Repr

/-- RemoteExecutor.execute_on_host (source lines 259-311).  A failed
connect (lines 265-267) and a failed transfer (lines 270-271) return
False before the classification code, so the host lands on neither list;
their error text is recorded by connect_host / transfer_script.  A
completed run is classified by exit code into successful_hosts or
failed_hosts; execute_command is invoked with check_error=False, so a
non-zero exit records no error, while a transport exception inside
execute_command records one and surfaces as exit code 1.  Any other
exception is caught by the handler at lines 302-306, which records an
error and appends the host to failed_hosts.  Every path returns a bool;
no exception escapes. -/
def execute_on_host : HostFate → HostOutcome
  | HostFate.connectFail => HostOutcome.mk false false false true
  | HostFate.transferFail => HostOutcome.mk false false false true
  | HostFate.execReturn rc =>
      if rc = 0 then HostOutcome.mk true true false false
      else HostOutcome.mk false false true false
  | HostFate.execCmdError => HostOutcome.mk false false true true
  | HostFate.execRaise => HostOutcome.mk false false true true

/-- Indices of list entries satisfying a predicate, counting from k. -/
def indicesWhereFrom (k : Nat) (f : HostOutcome → Bool) : List HostOutcome → List Nat
  | [] => []
  | o :: rest =>
      if f o then k :: indicesWhereFrom (k + 1) f rest
      else indicesWhereFrom (k + 1) f rest

/-- Indices of list entries satisfying a predicate. -/
def indicesWhere (l : List HostOutcome) (f : HostOutcome → Bool) : List Nat :=
  indicesWhereFrom 0 f l

/-- RemoteExecutor.execute_parallel (source lines 313-335): every host
task runs to an outcome, future exceptions are caught in the
as_completed loop, and the aggregate is the conjunction of per-host
results together with the two membership lists (hosts are identified by
their index; completion order affects only list order, not membership).
-/
def execute_parallel (fates : List HostFate) : Bool × List Nat × List Nat :=
  let outs := fates.map execute_on_host
  (outs.all (fun o => o.returnValue),
   indicesWhere outs (fun o => o.inSuccessful),
   indicesWhere outs (fun o => o.inFailed))

/-- File record for the atomic_write model: content and permission mode. -/
def AFs : Type := String → Option (String × Nat)

/-- Pointwise update of an atomic_write filesystem. -/
def aset (fs : AFs) (p : String) (v : Option (String × Nat)) : AFs :=
  fun q => if q = p then v else fs q

/-- Steps of SystemModifier.atomic_write that can raise. -/
inductive AWStep
  | mkstemp
  | writeStep
  | chmodStep
  | chownStep
  | moveStep
deriving DecidableEq, Repr

/-- SystemModifier.atomic_write (source lines 713-755).  Outside dry-run:
mkstemp creates a fresh temp file (mode 0o600) in the target directory —
hence on the same filesystem, so the final shutil.move is an atomic
rename; the content is written to the temp file; chmod sets the requested
mode; a chown failure is caught locally and only logged (ownership is not
modelled); the rename installs the temp file at the target path.  Any
exception after the temp file exists reaches the inner handler, which
unlinks the temp file and re-raises to the outer handler; every failure
path returns False.  The oracle `fails` says which steps raise. -/
def atomic_write (fs : AFs) (tmp target : String) (content : String) (mode : Nat)
    (fails : AWStep → Bool) (dryRun : Bool) : AFs × Bool :=
  if dryRun then (fs, true)
  else if fails AWStep.mkstemp then (fs, false)
  else
    let fs1 := aset fs tmp (some ("", 384))
    if fails AWStep.writeStep then (aset fs1 tmp none, false)
    else
      let fs2 := aset fs1 tmp (some (content, 384))
      if fails AWStep.chmodStep then (aset fs2 tmp none, false)
      else
        let fs3 := aset fs2 tmp (some (content, mode))
        if fails AWStep.moveStep then (aset fs3 tmp none, false)
        else (aset (aset fs3 target (some (content, mode))) tmp none, true)

/-- Concrete fully-compliant system: every live parameter already holds
its desired catalog value, and no sysctl configuration files exist. -/
def stigCompliantState : SysctlState := SysctlState.mk STIG_KERNEL_PARAMS []

/-- Concrete system whose only sysctl configuration file persists
net.ipv4.ip_forward with value 1 — different from the desired value 0 —
and in which the STIG artifact does not exist. -/
def wrongValueState : SysctlState :=
  SysctlState.mk [] [(SYSCTL_CONF_PATH, [("net.ipv4.ip_forward", "1")])]

/-- Concrete filesystem in which exactly two of the critical files exist
(and none of the critical directories). -/
def partialCaptureFS : FS := fun p =>
  if p = "/etc/ssh/sshd_config" then some (Entry.fileE "sshd config A")
  else if p = "/etc/pam.d/common-auth" then some (Entry.fileE "auth B")
  else none

/-- Concrete filesystem for the restore witness: one stale file and one
stale directory at the manifest paths, plus one unrelated file. -/
def rpLiveFS : FS := fun p =>
  if p = "/etc/sysctl.conf" then some (Entry.fileE "stale file")
  else if p = "/etc/sysctl.d/" then some (Entry.dirE "stale dir")
  else if p = "/etc/hostname" then some (Entry.fileE "unrelated")
  else none

/-- Concrete recovery bundle for the restore witness: a manifest listing
one file and one directory, both captured. -/
def rpWitnessBundle : RPBundle :=
  RPBundle.mk (some (RPManifest.mk ["/etc/sysctl.conf"] ["/etc/sysctl.d/"]))
    (fun p =>
      if p = "/etc/sysctl.conf" then some (Entry.fileE "captured file")
      else if p = "/etc/sysctl.d/" then some (Entry.dirE "captured dir")
      else none)

/-- Concrete healthy preflight environment: root, ample disk, healthy
systemd, network up, no SSH session, package system unlocked. -/
def preflightEnvOk : PreflightEnv := PreflightEnv.mk true 10000 true true false false

/-- Concrete filesystem for the preflight counterexample: the OS-release
file and the five critical configuration files exist, and the backup
directory does not. -/
def preflightFS : FS := fun p =>
  if p = "/etc/os-release" then some (Entry.fileE "NAME Ubuntu 20.04.6 LTS")
  else if p = "/etc/ssh/sshd_config" then some (Entry.fileE "sshd")
  else if p = "/etc/pam.d/common-auth" then some (Entry.fileE "auth")
  else if p = "/etc/pam.d/common-password" then some (Entry.fileE "password")
  else if p = "/etc/sudoers" then some (Entry.fileE "sudoers")
  else if p = "/etc/login.defs" then some (Entry.fileE "login")
  else none

/-- Concrete run configuration with every safety feature on: rollback
enabled, live run, validation on, a recovery point recorded, restore and
post-validation succeeding. -/
def runCfgAllOn : RunCfg := RunCfg.mk true false true true true true

/-- Helper: detect_parameter_conflicts raises TypeError on every state:
net.ipv4.ip_forward is in the catalog, so the routing probe always calls
run_command with the unsupported capture_output keyword outside any try
block. -/
theorem detect_parameter_conflicts_raises (s : SysctlState) :
    detect_parameter_conflicts s = Except.error PyExc.typeError := rfl

/-- Helper: verify_persistence either raises TypeError (when the STIG
artifact is on disk) or returns a result. -/
theorem verify_persistence_shape (s : SysctlState) :
    verify_persistence s = Except.error PyExc.typeError ∨
    ∃ r, verify_persistence s = Except.ok r := by
  unfold verify_persistence
  by_cases h : (lookupA s.confFiles STIG_CONF_PATH).isSome
  · rw [if_pos h]; left; rfl
  · rw [if_neg h]; right; exact ⟨_, rfl⟩

/-- Helper: a path not in the file list is untouched by the file-restore
loop. -/
theorem restore_files_frame (b : RPBundle) (p : String) :
    ∀ (fl : List String) (fs : FS), p ∉ fl → restore_files fs b fl p = fs p := by
  intro fl
  induction fl with
  | nil => intro fs _; rfl
  | cons f rest ih =>
      intro fs hp
      have hpf : p ≠ f := fun hh => hp (hh ▸ List.mem_cons_self f rest)
      have hprest : p ∉ rest := fun hh => hp (List.mem_cons_of_mem f hh)
      cases hc : b.captured f with
      | none => simpa [restore_files, hc] using ih _ hprest
      | some e =>
          simp only [restore_files, hc]
          rw [ih _ hprest]
          simp [fsSet, hpf]

/-- Helper: a listed file whose copy exists ends up holding the captured
copy after the file-restore loop. -/
theorem restore_files_mem (b : RPBundle) (f : String) :
    ∀ (fl : List String) (fs : FS), f ∈ fl →
      (∀ q ∈ fl, (b.captured q).isSome = true) →
      restore_files fs b fl f = b.captured f := by
  intro fl
  induction fl with
  | nil => intro fs h _; cases h
  | cons a rest ih =>
      intro fs hf hcap
      cases hc : b.captured a with
      | none =>
          have := hcap a (List.mem_cons_self a rest)
          rw [hc] at this
          simp at this
      | some e =>
          simp only [restore_files, hc]
          by_cases hfr : f ∈ rest
          · exact ih _ hfr (fun q hq => hcap q (List.mem_cons_of_mem a hq))
          · have hfa : f = a := by
              rcases List.mem_cons.mp hf with h1 | h1
              · exact h1
              · exact absurd h1 hfr
            rw [restore_files_frame b f rest _ hfr]
            subst hfa
            simp [fsSet, hc]

/-- Helper: a path not in the directory list is untouched by the
directory-restore loop. -/
theorem restore_dirs_frame (b : RPBundle) (p : String) :
    ∀ (dl : List String) (fs : FS), p ∉ dl → restore_dirs fs b dl p = fs p := by
  intro dl
  induction dl with
  | nil => intro fs _; rfl
  | cons d rest ih =>
      intro fs hp
      have hpd : p ≠ d := fun hh => hp (hh ▸ List.mem_cons_self d rest)
      have hprest : p ∉ rest := fun hh => hp (List.mem_cons_of_mem d hh)
      cases hc : b.captured d with
      | none => simpa [restore_dirs, hc] using ih _ hprest
      | some e =>
          simp only [restore_dirs, hc]
          rw [ih _ hprest]
          by_cases hfd : (fs d).isSome <;> simp [fsSet, hpd, hfd]

/-- Helper: a listed directory whose copy exists ends up replaced by the
captured copy after the directory-restore loop. -/
theorem restore_dirs_mem (b : RPBundle) (d : String) :
    ∀ (dl : List String) (fs : FS), d ∈ dl →
      (∀ q ∈ dl, (b.captured q).isSome = true) →
      restore_dirs fs b dl d = b.captured d := by
  intro dl
  induction dl with
  | nil => intro fs h _; cases h
  | cons a rest ih =>
      intro fs hd hcap
      cases hc : b.captured a with
      | none =>
          have := hcap a (List.mem_cons_self a rest)
          rw [hc] at this
          simp at this
      | some e =>
          simp only [restore_dirs, hc]
          by_cases hdr : d ∈ rest
          · exact ih _ hdr (fun q hq => hcap q (List.mem_cons_of_mem a hq))
          · have hda : d = a := by
              rcases List.mem_cons.mp hd with h1 | h1
              · exact h1
              · exact absurd h1 hdr
            rw [restore_dirs_frame b d rest _ hdr]
            subst hda
            simp [fsSet, hc]

/-- Helper: a successful capture loop appends exactly the existing paths
of its list, in order, to the in-memory manifest list. -/
theorem capture_go_ok_cap :
    ∀ (l : List String) (fs : FS) (b : String → Option Entry) (cap : List String)
      (st : Nat) (failAt : Option Nat) b2 cap2 st2,
      capture_go fs b cap st failAt l = (b2, cap2, st2, true) →
      cap2 = cap ++ l.filter (fun p => (fs p).isSome) := by
  intro l
  induction l with
  | nil =>
      intro fs b cap st failAt b2 cap2 st2 h
      simp only [capture_go] at h
      cases h
      simp
  | cons p rest ih =>
      intro fs b cap st failAt b2 cap2 st2 h
      cases hfs : fs p with
      | none =>
          simp only [capture_go, hfs] at h
          have := ih fs b cap st failAt b2 cap2 st2 h
          simp [List.filter_cons, hfs, this]
      | some e =>
          simp only [capture_go, hfs] at h
          by_cases hfail : failAt = some st
          · rw [if_pos hfail] at h
            cases h
          · rw [if_neg hfail] at h
            have := ih fs _ _ _ failAt b2 cap2 st2 h
            simp [List.filter_cons, hfs, this]

/-- Helper: check_backup_dir writes at most the backup directory path and
the probe-file path, and is the identity when the backup directory
already exists and no probe file was lying around. -/
theorem check_backup_dir_frame (fs : FS) :
    (∀ p, p ≠ BACKUP_DIR → p ≠ WRITE_TEST_PATH → (check_backup_dir fs).1 p = fs p) ∧
    ((fs BACKUP_DIR).isSome = true → fs WRITE_TEST_PATH = none →
      ∀ p, (check_backup_dir fs).1 p = fs p) := by
  have hbw : ¬(BACKUP_DIR = WRITE_TEST_PATH) := by decide
  constructor
  · intro p hb hw
    unfold check_backup_dir
    split
    · rfl
    · by_cases hnone : fs BACKUP_DIR = none <;> simp [fsSet, hb, hw, hnone]
  · intro hsome hw p
    unfold check_backup_dir
    split
    · rfl
    · have hnone : ¬(fs BACKUP_DIR = none) := by
        intro hh; rw [hh] at hsome; simp at hsome
      by_cases hpw : p = WRITE_TEST_PATH
      · subst hpw; simp [fsSet, hnone, hw, hbw]
      · by_cases hpb : p = BACKUP_DIR
        · subst hpb; simp [fsSet, hpw, hnone, hbw]
        · simp [fsSet, hpw, hpb, hnone]

/-- Helper: membership in the index list produced by indicesWhereFrom. -/
theorem indicesWhereFrom_mem :
    ∀ (l : List HostOutcome) (k i : Nat) (f : HostOutcome → Bool),
      i ∈ indicesWhereFrom k f l ↔
        ∃ j o, l.get? j = some o ∧ i = k + j ∧ f o = true := by
  intro l
  induction l with
  | nil => intro k i f; simp [indicesWhereFrom]
  | cons o rest ih =>
      intro k i f
      by_cases hf : f o
      · simp only [indicesWhereFrom, if_pos hf, List.mem_cons, ih]
        constructor
        · rintro (rfl | ⟨j, o2, hj, rfl, hfo⟩)
          · exact ⟨0, o, rfl, by omega, hf⟩
          · exact ⟨j + 1, o2, by simpa using hj, by omega, hfo⟩
        · rintro ⟨j, o2, hj, rfl, hfo⟩
          cases j with
          | zero =>
              left
              omega
          | succ j2 =>
              right
              exact ⟨j2, o2, by simpa using hj, by omega, hfo⟩
      · simp only [indicesWhereFrom, if_neg hf, ih]
        constructor
        · rintro ⟨j, o2, hj, rfl, hfo⟩
          exact ⟨j + 1, o2, by simpa using hj, by omega, hfo⟩
        · rintro ⟨j, o2, hj, rfl, hfo⟩
          cases j with
          | zero =>
              simp only [List.get?_cons_zero, Option.some.injEq] at hj
              subst hj
              exact absurd hfo (by simpa using hf)
          | succ j2 =>
              exact ⟨j2, o2, by simpa using hj, by omega, hfo⟩

/-- C1: the claim says that when apply_stig_params runs with rollback
enabled, a pre-change snapshot was taken, and applying parameters (step
3) or persisting and reloading the store (step 5) produced critical
errors, the engine restores every snapshotted parameter to its pre-apply
live value and returns False.  On the code this situation is unreachable:
for every starting state, apply_stig_params raises TypeError inside
detect_parameter_conflicts — before step 3 runs and before any live
value changes — so it never returns False and never performs a restore;
moreover the pre-change snapshot never captures a single live value
(every entry is None, because create_snapshot calls run_command with an
unsupported keyword and swallows the TypeError per parameter), so
restore_from_snapshot on such a snapshot is a no-op that reports
success. -/
theorem apply_stig_params_raises_before_rollback (s : SysctlState) :
    apply_stig_params s true = (s, [], Except.error PyExc.typeError) ∧
    (create_snapshot s).parameters =
      STIG_KERNEL_PARAMS.map (fun kv => (kv.1, (none : Option String))) ∧
    restore_from_snapshot s (create_snapshot s) = (s, true) :=
  ⟨rfl, rfl, rfl⟩

/-- Witness for C1 at a concrete state. -/
theorem apply_stig_params_raises_before_rollback_witness :
    apply_stig_params (SysctlState.mk [] []) true =
      (SysctlState.mk [] [], [], Except.error PyExc.typeError) :=
  (apply_stig_params_raises_before_rollback (SysctlState.mk [] [])).1

/-- C2: restore_recovery_point writes only to manifest-listed paths:
the restore reports success, every path outside the manifest is
unchanged, every manifest-listed file (not shadowed by a listed
directory) is overwritten with its captured copy, and every
manifest-listed directory is replaced wholesale by its captured copy.
The hypothesis says the bundle actually contains a copy of every
manifest-listed path, which create_recovery_point guarantees because it
lists exactly what it copied. -/
theorem restore_recovery_point_touches_only_manifest (fs : FS) (b : RPBundle)
    (m : RPManifest) (hm : b.manifest = some m)
    (hcap : ∀ q ∈ m.files ++ m.directories, (b.captured q).isSome = true) :
    (restore_recovery_point fs b).2 = true ∧
    (∀ p, p ∉ m.files → p ∉ m.directories →
      (restore_recovery_point fs b).1 p = fs p) ∧
    (∀ f ∈ m.files, f ∉ m.directories →
      (restore_recovery_point fs b).1 f = b.captured f) ∧
    (∀ d ∈ m.directories, (restore_recovery_point fs b).1 d = b.captured d) := by
  have hcf : ∀ q ∈ m.files, (b.captured q).isSome = true :=
    fun q hq => hcap q (List.mem_append_left _ hq)
  have hcd : ∀ q ∈ m.directories, (b.captured q).isSome = true :=
    fun q hq => hcap q (List.mem_append_right _ hq)
  refine ⟨?_, ?_, ?_, ?_⟩
  · simp [restore_recovery_point, hm]
  · intro p hpf hpd
    simp only [restore_recovery_point, hm]
    rw [restore_dirs_frame b p _ _ hpd, restore_files_frame b p _ _ hpf]
  · intro f hf hfd
    simp only [restore_recovery_point, hm]
    rw [restore_dirs_frame b f _ _ hfd]
    exact restore_files_mem b f _ _ hf hcf
  · intro d hd
    simp only [restore_recovery_point, hm]
    exact restore_dirs_mem b d _ _ hd hcd

/-- Witness for C2 on a concrete filesystem and bundle. -/
theorem restore_recovery_point_touches_only_manifest_witness :
    (restore_recovery_point rpLiveFS rpWitnessBundle).2 = true ∧
    (∀ p, p ∉ ["/etc/sysctl.conf"] → p ∉ ["/etc/sysctl.d/"] →
      (restore_recovery_point rpLiveFS rpWitnessBundle).1 p = rpLiveFS p) ∧
    (∀ f ∈ ["/etc/sysctl.conf"], f ∉ ["/etc/sysctl.d/"] →
      (restore_recovery_point rpLiveFS rpWitnessBundle).1 f = rpWitnessBundle.captured f) ∧
    (∀ d ∈ ["/etc/sysctl.d/"],
      (restore_recovery_point rpLiveFS rpWitnessBundle).1 d = rpWitnessBundle.captured d) :=
  restore_recovery_point_touches_only_manifest rpLiveFS rpWitnessBundle
    (RPManifest.mk ["/etc/sysctl.conf"] ["/etc/sysctl.d/"]) rfl (by decide)

/-- C3 counterexample: with every safety feature on and the default
threshold of MAX_FAILED_COMMANDS = 10, a run whose third severity tier
contributes 11 errors — one more than the threshold — completes all
tiers, attempts no rollback, and merely returns failure at the end,
because the error budget is only checked after the first and second
tiers; this refutes the claim that the count is checked after each tier
with threshold + 1 triggering abort-and-rollback. -/
theorem run_exceeds_budget_in_last_tier_no_rollback :
    MAX_FAILED_COMMANDS + 1 = 11 ∧
    run_categories runCfgAllOn MAX_FAILED_COMMANDS 0 0 11 =
      RunOutcome.completed 11 false :=
  ⟨rfl, rfl⟩

/-- C3 (amended): the error budget is checked after the first and second
severity tiers only, with a strict comparison: a tier-1 count of exactly
threshold + 1 aborts after tier 1; with tier 1 within budget, an
accumulated count of exactly threshold + 1 after tier 2 aborts after
tier 2 (in both cases rollback is attempted exactly when auto-rollback
is on, the run is live and a recovery point exists, and the run returns
failure); and whenever the accumulated count stays at or below the
threshold at both checkpoints the run never aborts on the error budget —
in particular a count of exactly threshold continues to the next tier. -/
theorem run_error_budget_boundary (cfg : RunCfg) (t e1 e2 e3 : Nat) :
    (e1 = t + 1 →
      run_categories cfg t e1 e2 e3 =
        RunOutcome.abortedTooManyErrors 1
          (cfg.rollbackEnabled && !cfg.dryRun && cfg.hasRecoveryPoint) false) ∧
    (e1 ≤ t → e1 + e2 = t + 1 →
      run_categories cfg t e1 e2 e3 =
        RunOutcome.abortedTooManyErrors 2
          (cfg.rollbackEnabled && !cfg.dryRun && cfg.hasRecoveryPoint) false) ∧
    (e1 ≤ t → e1 + e2 ≤ t →
      ∀ k rb rv, run_categories cfg t e1 e2 e3 ≠
        RunOutcome.abortedTooManyErrors k rb rv) := by
  refine ⟨?_, ?_, ?_⟩
  · intro h
    unfold run_categories
    rw [if_pos (by omega)]
  · intro h1 h2
    unfold run_categories
    rw [if_neg (by omega), if_pos (by omega)]
  · intro h1 h2 k rb rv
    unfold run_categories
    rw [if_neg (by omega), if_neg (by omega)]
    split_ifs <;> simp

/-- Witness for C3 at the tier-2 boundary with the default threshold. -/
theorem run_error_budget_boundary_witness :
    run_categories runCfgAllOn MAX_FAILED_COMMANDS 0 11 0 =
      RunOutcome.abortedTooManyErrors 2 true false :=
  (run_error_budget_boundary runCfgAllOn MAX_FAILED_COMMANDS 0 11 0).2.1
    (by decide) (by decide)

/-- C4 counterexample: generate_compliance_report never returns a report
(it raises TypeError at a concrete state before reaching the score
computation), and the coded grade banding assigns 94.9 the grade A, not
B+ as the claim asserts (94.9 is at least 90). -/
theorem generate_compliance_report_counterexample :
    generate_compliance_report stigCompliantState = Except.error PyExc.typeError ∧
    assign_grade (949 / 10) = "A" ∧ assign_grade (949 / 10) ≠ "B+" := by
  refine ⟨?_, by norm_num [assign_grade], ?_⟩
  · rcases verify_persistence_shape stigCompliantState with h | ⟨r, h⟩ <;>
      simp [generate_compliance_report, h, detect_parameter_conflicts_raises, bind, Except.bind]
  · rw [show assign_grade (949 / 10) = "A" by norm_num [assign_grade]]
    decide

/-- C4 (amended): generate_compliance_report raises TypeError on every
state — verify_persistence raises when the STIG artifact exists, and
detect_parameter_conflicts raises unconditionally, both by calling
run_command with an unsupported keyword — so no score or grade is ever
produced; the unreachable banding code maps 95 to A+, 94.9 to A, 84.9 to
B and 85 to B+. -/
theorem generate_compliance_report_always_raises (s : SysctlState) :
    generate_compliance_report s = Except.error PyExc.typeError ∧
    assign_grade 95 = "A+" ∧ assign_grade (949 / 10) = "A" ∧
    assign_grade (849 / 10) = "B" ∧ assign_grade 85 = "B+" := by
  refine ⟨?_, ?_, ?_, ?_, ?_⟩
  · rcases verify_persistence_shape s with h | ⟨r, h⟩ <;>
      simp [generate_compliance_report, h, detect_parameter_conflicts_raises, bind, Except.bind]
  all_goals norm_num [assign_grade]

/-- Witness for C4 at a concrete state. -/
theorem generate_compliance_report_always_raises_witness :
    generate_compliance_report wrongValueState = Except.error PyExc.typeError :=
  (generate_compliance_report_always_raises wrongValueState).1

/-- C5 counterexample: on a filesystem holding two critical files, a copy
failure at the second capture makes create_recovery_point return False
with the first file already copied into the bundle — yet no manifest at
all reaches disk, because manifest.json is only written after every
capture succeeds; the claim that the on-disk manifest lists exactly the
items captured before the failure is therefore false. -/
theorem create_rp_partial_failure_leaves_no_manifest :
    (create_recovery_point partialCaptureFS (some 1) false).ok = false ∧
    (create_recovery_point partialCaptureFS (some 1) false).manifestOnDisk = none ∧
    (create_recovery_point partialCaptureFS (some 1) false).bundle "/etc/ssh/sshd_config" =
      some (Entry.fileE "sshd config A") :=
  ⟨rfl, rfl, rfl⟩

/-- C5 (amended): when create_recovery_point fails partway — during any
copy or during the manifest write — no manifest reaches disk at all, so
the partially-written bundle is not restorable through
restore_recovery_point (which requires the manifest); only when every
capture and the manifest write succeed does the on-disk manifest exist,
and it then lists exactly the critical files and directories that exist
on the filesystem, which are exactly the captured ones. -/
theorem create_rp_manifest_only_on_success (fs : FS) (failAt : Option Nat) (mwf : Bool) :
    ((create_recovery_point fs failAt mwf).ok = false →
      (create_recovery_point fs failAt mwf).manifestOnDisk = none) ∧
    ((create_recovery_point fs failAt mwf).ok = true →
      (create_recovery_point fs failAt mwf).manifestOnDisk =
        some (RPManifest.mk (CRITICAL_FILES.filter (fun p => (fs p).isSome))
          (CRITICAL_DIRS.filter (fun p => (fs p).isSome)))) := by
  rcases h1 : capture_go fs (fun _ => none) [] 0 failAt CRITICAL_FILES with
    ⟨b1, cap1, st1, ok1⟩
  unfold create_recovery_point
  rw [h1]
  dsimp only
  cases ok1 with
  | false => simp
  | true =>
      rcases h2 : capture_go fs b1 [] st1 failAt CRITICAL_DIRS with ⟨b2, cap2, st2, ok2⟩
      dsimp only
      cases ok2 with
      | false => simp
      | true =>
          cases mwf with
          | true => simp
          | false =>
              have hc1 := capture_go_ok_cap CRITICAL_FILES fs _ _ _ _ _ _ _ h1
              have hc2 := capture_go_ok_cap CRITICAL_DIRS fs _ _ _ _ _ _ _ h2
              simp only [List.nil_append] at hc1 hc2
              simp [hc1, hc2]

/-- Witness for C5: a fully successful capture writes a manifest listing
exactly the two existing critical files. -/
theorem create_rp_manifest_only_on_success_witness :
    (create_recovery_point partialCaptureFS none false).manifestOnDisk =
      some (RPManifest.mk ["/etc/ssh/sshd_config", "/etc/pam.d/common-auth"] []) :=
  (create_rp_manifest_only_on_success partialCaptureFS none false).2 rfl

/-- C6 counterexample: on a system whose only sysctl configuration file
assigns net.ipv4.ip_forward the value 1 while the desired value is 0,
verify_persistence records the parameter as present in configuration and
does not report it in missing_from_config, even though its desired value
appears in no configuration file; the claimed iff (and in particular
that a wrongly-valued persisted parameter counts as missing) is false. -/
theorem verify_persistence_ignores_values :
    (verify_persistence wrongValueState).toOption.map
        (fun r => ((r.missing_from_config.map Prod.fst).contains "net.ipv4.ip_forward",
          r.parameters_in_config)) =
      some (false, [("net.ipv4.ip_forward", [(SYSCTL_CONF_PATH, "1")])]) ∧
    lookupA STIG_KERNEL_PARAMS "net.ipv4.ip_forward" = some "0" :=
  ⟨rfl, rfl⟩

/-- C6 (amended): when the STIG artifact is not on disk (otherwise
verify_persistence raises TypeError and returns nothing), a catalog
parameter is reported in missing_from_config exactly when no found
configuration file contains an assignment line for its name — the
assigned values are never compared against the desired value — and
persistence_verified is cleared exactly when missing_from_config is
non-empty. -/
theorem verify_persistence_missing_iff (s : SysctlState)
    (h : lookupA s.confFiles STIG_CONF_PATH = none)
    (p e : String) (hp : (p, e) ∈ STIG_KERNEL_PARAMS) :
    ∃ r, verify_persistence s = Except.ok r ∧
      ((p, e) ∈ r.missing_from_config ↔ param_config_hits s p = []) ∧
      (r.persistence_verified = false ↔ r.missing_from_config ≠ []) := by
  have hs : ¬((lookupA s.confFiles STIG_CONF_PATH).isSome = true) := by
    rw [h]; exact Bool.false_ne_true
  have hr : verify_persistence s = Except.ok (PersistResults.mk (config_files_found s)
      ((STIG_KERNEL_PARAMS.filter (fun kv => !(param_config_hits s kv.1).isEmpty)).map
        (fun kv => (kv.1, param_config_hits s kv.1)))
      (STIG_KERNEL_PARAMS.filter (fun kv => (param_config_hits s kv.1).isEmpty))
      (STIG_KERNEL_PARAMS.filter (fun kv => (param_config_hits s kv.1).isEmpty)).isEmpty) := by
    unfold verify_persistence
    rw [if_neg hs]
  refine ⟨_, hr, ?_, ?_⟩
  · dsimp only
    constructor
    · intro hmem
      have h2 := (List.mem_filter.mp hmem).2
      simpa [List.isEmpty_iff] using h2
    · intro hempty
      refine List.mem_filter.mpr ⟨hp, ?_⟩
      simp [List.isEmpty_iff, hempty]
  · dsimp only
    generalize List.filter (fun kv => (param_config_hits s kv.1).isEmpty) STIG_KERNEL_PARAMS = M
    cases M with
    | nil => simp
    | cons a t => simp

/-- Witness for C6 on the concrete wrong-value system, at a parameter
that genuinely appears in no configuration file. -/
theorem verify_persistence_missing_iff_witness :
    ∃ r, verify_persistence wrongValueState = Except.ok r ∧
      (("net.ipv4.conf.all.rp_filter", "1") ∈ r.missing_from_config ↔
        param_config_hits wrongValueState "net.ipv4.conf.all.rp_filter" = []) ∧
      (r.persistence_verified = false ↔ r.missing_from_config ≠ []) :=
  verify_persistence_missing_iff wrongValueState rfl
    "net.ipv4.conf.all.rp_filter" "1" (by decide)

/-- C7 counterexample: on a healthy system whose backup directory does
not yet exist, run_all_checks passes — and creates the backup directory,
so the filesystem after the checks differs from the filesystem before;
the claim that run_all_checks leaves every file and directory unchanged
is false. -/
theorem preflight_creates_backup_dir :
    preflightFS BACKUP_DIR = none ∧
    (run_all_checks preflightEnvOk preflightFS).1 BACKUP_DIR = some (Entry.dirE "") ∧
    (run_all_checks preflightEnvOk preflightFS).2 = true :=
  ⟨rfl, rfl, rfl⟩

/-- C7 (amended): every preflight check except check_backup_dir is a
pure read; run_all_checks can write only at the backup-directory path
(created when absent) and at the probe-file path inside it (written and
then unlinked), so every other path is unchanged, and when the backup
directory already exists and no probe file was lying around the whole
filesystem is unchanged. -/
theorem run_all_checks_touches_only_backup_paths (env : PreflightEnv) (fs : FS) :
    (∀ p, p ≠ BACKUP_DIR → p ≠ WRITE_TEST_PATH →
      (run_all_checks env fs).1 p = fs p) ∧
    ((fs BACKUP_DIR).isSome = true → fs WRITE_TEST_PATH = none →
      ∀ p, (run_all_checks env fs).1 p = fs p) := by
  have hrw : (run_all_checks env fs).1 = (check_backup_dir fs).1 := by
    unfold run_all_checks
    rcases hcb : check_backup_dir fs with ⟨fs1, r6⟩
    simp [hcb]
  rw [hrw]
  exact check_backup_dir_frame fs

/-- Witness for C7: an untouched critical file keeps its content across
the checks. -/
theorem run_all_checks_touches_only_backup_paths_witness :
    (run_all_checks preflightEnvOk preflightFS).1 "/etc/ssh/sshd_config" =
      preflightFS "/etc/ssh/sshd_config" :=
  (run_all_checks_touches_only_backup_paths preflightEnvOk preflightFS).1
    "/etc/ssh/sshd_config" (by decide) (by decide)

/-- C8 counterexample: on a system where every live parameter already
equals its desired catalog value, re-running apply_stig_params does not
yield a compliance score of 100 — it raises TypeError before applying or
scoring anything, leaving the state untouched and the change list empty. -/
theorem apply_on_compliant_state_does_not_score :
    (STIG_KERNEL_PARAMS.all
        (fun kv => lookupA stigCompliantState.live kv.1 == some kv.2)) = true ∧
    apply_stig_params stigCompliantState true =
      (stigCompliantState, [], Except.error PyExc.typeError) :=
  ⟨rfl, rfl⟩

/-- C8 (amended): re-running apply_stig_params on a fully-compliant
parameter set records no change entries and produces no compliance
score: the call raises TypeError during conflict detection before any
parameter is touched, so the state is unchanged, the change list stays
empty, and no score — 100 or otherwise — is reported. -/
theorem apply_stig_params_on_compliant_raises (s : SysctlState)
    (h : ∀ kv ∈ STIG_KERNEL_PARAMS, lookupA s.live kv.1 = some kv.2) :
    apply_stig_params s true = (s, [], Except.error PyExc.typeError) := rfl

/-- Witness for C8 at the concrete fully-compliant state. -/
theorem apply_stig_params_on_compliant_raises_witness :
    apply_stig_params stigCompliantState true =
      (stigCompliantState, [], Except.error PyExc.typeError) :=
  apply_stig_params_on_compliant_raises stigCompliantState (by decide)

/-- C9 counterexample: with one host whose remediation succeeds and one
whose connection fails, execute_parallel returns overall failure and
places the first host in successful_hosts — but the connection-failed
host appears in neither successful_hosts nor failed_hosts (its error is
recorded on the host object only); the claim that every host is recorded
in exactly one of the two lists is false. -/
theorem execute_parallel_drops_connect_failed_host :
    execute_parallel [HostFate.execReturn 0, HostFate.connectFail] = (false, [0], []) ∧
    (execute_on_host HostFate.connectFail).errorRecorded = true :=
  ⟨rfl, rfl⟩

/-- C9 (amended): execute_parallel always returns (no exception escapes
the coordinator, every future is consumed), and for every host: it lands
in successful_hosts exactly when its remote run completed with exit code
0; it lands in failed_hosts exactly when its run completed with a
non-zero exit code, a transport error surfaced through execute_command
(such as a timeout, recorded as an error with exit code 1), or another
exception was caught by the execute_on_host handler; no host is on both
lists; and hosts that fail at connect or at script transfer are on
neither list, with only their per-host error ledger recording the
failure. -/
theorem execute_parallel_membership (fates : List HostFate) (i : Nat) (fate : HostFate)
    (h : fates.get? i = some fate) :
    (i ∈ (execute_parallel fates).2.1 ↔ fate = HostFate.execReturn 0) ∧
    (i ∈ (execute_parallel fates).2.2 ↔
      ((∃ rc, fate = HostFate.execReturn rc ∧ rc ≠ 0) ∨
        fate = HostFate.execCmdError ∨ fate = HostFate.execRaise)) ∧
    ¬(i ∈ (execute_parallel fates).2.1 ∧ i ∈ (execute_parallel fates).2.2) := by
  have hmem : ∀ (f : HostOutcome → Bool),
      (i ∈ indicesWhereFrom 0 f (fates.map execute_on_host) ↔
        f (execute_on_host fate) = true) := by
    intro f
    rw [indicesWhereFrom_mem]
    constructor
    · rintro ⟨j, o, hj, hij, hfo⟩
      rw [List.get?_map] at hj
      have hji : j = i := by omega
      subst hji
      rw [h] at hj
      have ho : execute_on_host fate = o := by simpa using hj
      rwa [ho]
    · intro hfo
      refine ⟨i, execute_on_host fate, ?_, by omega, hfo⟩
      rw [List.get?_map, h]
      rfl
  have h1 := hmem (fun o => o.inSuccessful)
  have h2 := hmem (fun o => o.inFailed)
  simp only [execute_parallel] at h1 h2 ⊢
  refine ⟨?_, ?_, ?_⟩
  · rw [show indicesWhere (fates.map execute_on_host) (fun o => o.inSuccessful) =
        indicesWhereFrom 0 (fun o => o.inSuccessful) (fates.map execute_on_host) from rfl, h1]
    cases fate with
    | execReturn rc =>
        by_cases hrc : rc = 0 <;> simp [execute_on_host, hrc]
    | _ => simp [execute_on_host]
  · rw [show indicesWhere (fates.map execute_on_host) (fun o => o.inFailed) =
        indicesWhereFrom 0 (fun o => o.inFailed) (fates.map execute_on_host) from rfl, h2]
    cases fate with
    | execReturn rc =>
        by_cases hrc : rc = 0 <;> simp [execute_on_host, hrc]
    | _ => simp [execute_on_host]
  · rintro ⟨ha, hb⟩
    rw [show indicesWhere (fates.map execute_on_host) (fun o => o.inSuccessful) =
        indicesWhereFrom 0 (fun o => o.inSuccessful) (fates.map execute_on_host) from rfl, h1] at ha
    rw [show indicesWhere (fates.map execute_on_host) (fun o => o.inFailed) =
        indicesWhereFrom 0 (fun o => o.inFailed) (fates.map execute_on_host) from rfl, h2] at hb
    cases fate with
    | execReturn rc =>
        by_cases hrc : rc = 0 <;> simp [execute_on_host, hrc] at ha hb
    | connectFail => simp [execute_on_host] at ha
    | transferFail => simp [execute_on_host] at ha
    | execCmdError => simp [execute_on_host] at ha
    | execRaise => simp [execute_on_host] at ha

/-- Witness for C9: the successful host of the counterexample pair is in
successful_hosts. -/
theorem execute_parallel_membership_witness :
    0 ∈ (execute_parallel [HostFate.execReturn 0, HostFate.connectFail]).2.1 := by
  have hh := execute_parallel_membership [HostFate.execReturn 0, HostFate.connectFail] 0
    (HostFate.execReturn 0) rfl
  exact hh.1.mpr rfl

/-- C10: atomic_write is atomic at the target path.  Outside dry-run,
with a fresh temp name (mkstemp guarantees the temp file is new and is
distinct from the target): whenever the call returns True the target
holds exactly the given content with the requested mode and every other
path — the temp path included — is unchanged; whenever it returns False
the whole filesystem, target and temp path included, is exactly as
before, so no partially-written target and no leftover temp file exist. -/
theorem atomic_write_atomic (fs : AFs) (tmp target content : String) (mode : Nat)
    (fails : AWStep → Bool) (htmp : fs tmp = none) (hne : tmp ≠ target) :
    ((atomic_write fs tmp target content mode fails false).2 = true →
      (atomic_write fs tmp target content mode fails false).1 target =
          some (content, mode) ∧
      ∀ p, p ≠ target → (atomic_write fs tmp target content mode fails false).1 p = fs p) ∧
    ((atomic_write fs tmp target content mode fails false).2 = false →
      ∀ p, (atomic_write fs tmp target content mode fails false).1 p = fs p) := by
  have hne2 : ¬(target = tmp) := fun hh => hne hh.symm
  unfold atomic_write
  simp only [Bool.false_eq_true, if_false]
  by_cases f1 : fails AWStep.mkstemp
  · simp only [if_pos f1]
    exact ⟨fun hh => absurd hh (by simp), fun _ p => by simp⟩
  · simp only [if_neg f1]
    by_cases f2 : fails AWStep.writeStep
    · simp only [if_pos f2]
      refine ⟨fun hh => absurd hh (by simp), fun _ p => ?_⟩
      by_cases hp : p = tmp <;> simp [aset, hp, htmp]
    · simp only [if_neg f2]
      by_cases f3 : fails AWStep.chmodStep
      · simp only [if_pos f3]
        refine ⟨fun hh => absurd hh (by simp), fun _ p => ?_⟩
        by_cases hp : p = tmp <;> simp [aset, hp, htmp]
      · simp only [if_neg f3]
        by_cases f4 : fails AWStep.moveStep
        · simp only [if_pos f4]
          refine ⟨fun hh => absurd hh (by simp), fun _ p => ?_⟩
          by_cases hp : p = tmp <;> simp [aset, hp, htmp]
        · simp only [if_neg f4]
          refine ⟨fun _ => ⟨?_, fun p hp => ?_⟩, fun hh => absurd hh (by simp)⟩
          · simp [aset, hne2]
          · by_cases hpt : p = tmp
            · subst hpt; simp [aset, htmp]
            · simp [aset, hpt, hp]

/-- Witness for C10: a successful write on an empty filesystem installs
the content at the target with the requested mode and leaves every other
path absent. -/
theorem atomic_write_atomic_witness :
    ((atomic_write (fun _ => none) "/etc/.tmpXYZ" "/etc/sysctl.conf"
        "net.ipv4.ip_forward = 0" 420 (fun _ => false) false).2 = true →
      (atomic_write (fun _ => none) "/etc/.tmpXYZ" "/etc/sysctl.conf"
          "net.ipv4.ip_forward = 0" 420 (fun _ => false) false).1 "/etc/sysctl.conf" =
        some ("net.ipv4.ip_forward = 0", 420) ∧
      ∀ p, p ≠ "/etc/sysctl.conf" →
        (atomic_write (fun _ => none) "/etc/.tmpXYZ" "/etc/sysctl.conf"
            "net.ipv4.ip_forward = 0" 420 (fun _ => false) false).1 p = none) ∧
    ((atomic_write (fun _ => none) "/etc/.tmpXYZ" "/etc/sysctl.conf"
        "net.ipv4.ip_forward = 0" 420 (fun _ => false) false).2 = false →
      ∀ p, (atomic_write (fun _ => none) "/etc/.tmpXYZ" "/etc/sysctl.conf"
          "net.ipv4.ip_forward = 0" 420 (fun _ => false) false).1 p = none) :=
  atomic_write_atomic (fun _ => none) "/etc/.tmpXYZ" "/etc/sysctl.conf"
    "net.ipv4.ip_forward = 0" 420 (fun _ => false) rfl (by decide)
